import Mathlib

set_option maxRecDepth 2000
set_option maxHeartbeats 1600000

/-!
# Verification of the Run Intel briefing and coaching engines

A shallow embedding, in Lean 4, of the scoring code of the `run-intel`
repository, together with theorems settling the frozen claims about it.

Embedding conventions:
* Python floats are modelled as exact rationals (`ℚ`); IEEE rounding is
  not modelled.
* Python `None` becomes `Option.none`; a dict field that may be absent
  or `None` is an `Option` field.
* Python strings are modelled as lists of Unicode code points
  (`List ℕ`): the colon is 58, the digits are 48–57.
* `statistics.stdev` returns a square root, which is irrational in
  general.  Every use of the coefficient of variation in the source is a
  comparison (`cv > 15`, `cv <= 10`, `cv <= 8`); since `cv ≥ 0` these
  comparisons are equivalent to comparisons of `cv²` against the squared
  bound, so the embedding carries `cv²` (an exact rational) and compares
  it with `225`, `100` and `64`.
* Dates are modelled as integers (day numbers); the histories handed to
  the engine are already windowed and ordered by the caller.
-/

namespace RunIntel

/-- One row of `recovery_history` as handed to `generate_briefing`
(`briefing.py`): a dict with `date`, `recovery_score`, `hrv`,
`resting_hr`, any of the metrics possibly `None`. -/
structure RecoveryRecord where
  date : ℤ
  recovery_score : Option ℚ
  hrv : Option ℚ
  resting_hr : Option ℚ
deriving DecidableEq

/-- One row of `run_history` as handed to `generate_briefing`: a dict
with `date` and `strain` (possibly `None`). -/
structure RunStrainRecord where
  date : ℤ
  strain : Option ℚ
deriving DecidableEq

/-- The `today_recovery` argument of `generate_briefing`: the three
metrics of the current day, each possibly `None`. -/
structure TodayRecovery where
  recovery_score : Option ℚ
  hrv : Option ℚ
  resting_hr : Option ℚ
deriving DecidableEq

/-- Python `l[-k:]` on a list: the last `k` elements (all of them when
fewer than `k` exist). -/
def lastN (k : ℕ) (l : List ℚ) : List ℚ :=
  l.drop (l.length - k)

/-- `statistics.mean` on a non-empty list: the arithmetic mean. -/
def meanQ (l : List ℚ) : ℚ :=
  l.sum / l.length

/-- The `statistics.mean(x) if x else None` idiom of `briefing.py`. -/
def meanOpt (l : List ℚ) : Option ℚ :=
  if l.isEmpty then none else some (meanQ l)

/-- The square of `statistics.stdev`: the sample variance
`Σ (x - mean)² / (n - 1)` (meaningful when the list has at least two
elements; all call sites guard with a length check). -/
def svar (l : List ℚ) : ℚ :=
  (l.map (fun x => (x - meanQ l) ^ 2)).sum / ((l.length : ℚ) - 1)

/-- `[r["hrv"] for r in recovery_history if r.get("hrv") is not None]`. -/
def hrvVals (rh : List RecoveryRecord) : List ℚ :=
  rh.filterMap (fun r => r.hrv)

/-- The analogous comprehension for `resting_hr`. -/
def rhrVals (rh : List RecoveryRecord) : List ℚ :=
  rh.filterMap (fun r => r.resting_hr)

/-- The analogous comprehension for `recovery_score`. -/
def recVals (rh : List RecoveryRecord) : List ℚ :=
  rh.filterMap (fun r => r.recovery_score)

/-- `[r["strain"] for r in run_history if r.get("strain") is not None]`. -/
def strainVals (rn : List RunStrainRecord) : List ℚ :=
  rn.filterMap (fun r => r.strain)

/-- The derived metrics computed by `generate_briefing`
(`briefing.py`, the "Compute derived metrics" block): the local
variables of the function body, gathered in one record.
`hrv_7d_cv2` holds the square of the `hrv_7d_cv` of the source (see the
file header). -/
structure Derived where
  hrv_values : List ℚ
  hrv_7d : List ℚ
  hrv_7d_avg : Option ℚ
  hrv_30d_baseline : Option ℚ
  hrv_7d_cv2 : Option ℚ
  hrv_dropping : Bool
  rhr_values : List ℚ
  rhr_7d_avg : Option ℚ
  rhr_30d_baseline : Option ℚ
  rhr_diff : Option ℚ
  rhr_elevated : Bool
  rec_3d_avg : Option ℚ
  rec_7d_avg : Option ℚ
  rec_trending_down : Bool
  strain_values : List ℚ
  strain_3d : ℚ
  strain_typical_3d : Option ℚ
  strain_high : Bool
deriving DecidableEq

/-- The `hrv_7d_cv` computation of `briefing.py` (squared):
`None` unless the window has at least 3 samples and a positive mean
(the source writes `len(hrv_7d) >= 3 and hrv_7d_avg and hrv_7d_avg > 0`,
where the bare `hrv_7d_avg` is Python truthiness: not `None` and not
zero). -/
def cv2Of (hrv_7d : List ℚ) (hrv_7d_avg : Option ℚ) : Option ℚ :=
  match hrv_7d_avg with
  | some a =>
      if 3 ≤ hrv_7d.length ∧ a ≠ 0 ∧ 0 < a then
        some (svar hrv_7d / a ^ 2 * 10000)
      else none
  | none => none

/-- The `hrv_dropping` computation: true iff there are at least three
values and the last three are strictly decreasing. -/
def droppingOf (hrv_values : List ℚ) : Bool :=
  if 3 ≤ hrv_values.length then
    match lastN 3 hrv_values with
    | a :: b :: c :: _ => decide (b < a ∧ c < b)
    | _ => false
  else false

/-- `rhr_diff`: today minus the 30-day baseline, when both exist. -/
def rhrDiffOf (rhr_today rhr_30d_baseline : Option ℚ) : Option ℚ :=
  match rhr_today, rhr_30d_baseline with
  | some r, some b => some (r - b)
  | _, _ => none

/-- The derived-metric block of `generate_briefing`
(`briefing.py` lines 38–88), one field per local variable. -/
def derive (t : TodayRecovery) (recovery_history : List RecoveryRecord)
    (run_history : List RunStrainRecord) : Derived :=
  let hrv_values := hrvVals recovery_history
  let rhr_values := rhrVals recovery_history
  let rec_values := recVals recovery_history
  let hrv_7d := if 7 ≤ hrv_values.length then lastN 7 hrv_values else hrv_values
  let hrv_7d_avg := meanOpt hrv_7d
  let hrv_30d_baseline := meanOpt hrv_values
  let hrv_7d_cv2 := cv2Of hrv_7d hrv_7d_avg
  let hrv_dropping := droppingOf hrv_values
  let rhr_7d := if 7 ≤ rhr_values.length then lastN 7 rhr_values else rhr_values
  let rhr_7d_avg := meanOpt rhr_7d
  let rhr_30d_baseline := meanOpt rhr_values
  let rhr_diff := rhrDiffOf t.resting_hr rhr_30d_baseline
  let rhr_elevated := match rhr_diff with
    | some d => decide (3 ≤ d)
    | none => false
  let rec_last3 := if 3 ≤ rec_values.length then lastN 3 rec_values else rec_values
  let rec_7d := if 7 ≤ rec_values.length then lastN 7 rec_values else rec_values
  let rec_3d_avg := meanOpt rec_last3
  let rec_7d_avg := meanOpt rec_7d
  let rec_trending_down := match rec_3d_avg, rec_7d_avg with
    | some a3, some a7 => decide (a3 < a7 - 5)
    | _, _ => false
  let strain_values := strainVals run_history
  let strain_3d := if 3 ≤ strain_values.length then (lastN 3 strain_values).sum
    else strain_values.sum
  let strain_30d_total := if strain_values.isEmpty then 0 else strain_values.sum
  let strain_days := strain_values.length
  let strain_typical_3d := if 0 < strain_days
    then some (strain_30d_total / (strain_days : ℚ) * 3) else none
  let strain_high := match strain_typical_3d with
    | some ty => decide (0 < ty) && decide (ty * 1.25 < strain_3d)
    | none => false
  { hrv_values := hrv_values
    hrv_7d := hrv_7d
    hrv_7d_avg := hrv_7d_avg
    hrv_30d_baseline := hrv_30d_baseline
    hrv_7d_cv2 := hrv_7d_cv2
    hrv_dropping := hrv_dropping
    rhr_values := rhr_values
    rhr_7d_avg := rhr_7d_avg
    rhr_30d_baseline := rhr_30d_baseline
    rhr_diff := rhr_diff
    rhr_elevated := rhr_elevated
    rec_3d_avg := rec_3d_avg
    rec_7d_avg := rec_7d_avg
    rec_trending_down := rec_trending_down
    strain_values := strain_values
    strain_3d := strain_3d
    strain_typical_3d := strain_typical_3d
    strain_high := strain_high }

/-- The four terminal states of the status classifier. -/
inductive Status where
  | primed
  | solid
  | cautious
  | recovery
deriving DecidableEq

/-- `score is not None and k <= score` (the guard pattern of the
classifier chain of `briefing.py`). -/
def scoreGE (score : Option ℚ) (k : ℚ) : Bool :=
  match score with
  | some s => decide (k ≤ s)
  | none => false

/-- `score is not None and score < k`. -/
def scoreLT (score : Option ℚ) (k : ℚ) : Bool :=
  match score with
  | some s => decide (s < k)
  | none => false

/-- `hrv_above`: today and the baseline both present, today at or above
the baseline (`briefing.py` line 92). -/
def hrvAbove (hrv_today baseline : Option ℚ) : Bool :=
  match hrv_today, baseline with
  | some h, some b => decide (b ≤ h)
  | _, _ => false

/-- `hrv_below`: today strictly below baseline minus 5 (line 93). -/
def hrvBelow (hrv_today baseline : Option ℚ) : Bool :=
  match hrv_today, baseline with
  | some h, some b => decide (h < b - 5)
  | _, _ => false

/-- `hrv_well_below`: today strictly below baseline minus 10 (line 94). -/
def hrvWellBelow (hrv_today baseline : Option ℚ) : Bool :=
  match hrv_today, baseline with
  | some h, some b => decide (h < b - 10)
  | _, _ => false

/-- `cv_high`: cv present and above 15 percent; on the squared encoding,
cv² above 225 (line 95). -/
def cvHigh (cv2 : Option ℚ) : Bool :=
  match cv2 with
  | some c => decide (225 < c)
  | none => false

/-- `cv_low`: cv present and at most 10 percent; squared, at most 100
(line 96). -/
def cvLow (cv2 : Option ℚ) : Bool :=
  match cv2 with
  | some c => decide (c ≤ 100)
  | none => false

/-- The if/elif classifier chain of `generate_briefing`
(`briefing.py` lines 98–121), verbatim in order. -/
def statusOf (score hrv_today : Option ℚ) (d : Derived) : Status :=
  if scoreGE score 67 && hrvAbove hrv_today d.hrv_30d_baseline
      && !d.rhr_elevated && cvLow d.hrv_7d_cv2 then .primed
  else if scoreGE score 50 && !d.rhr_elevated
      && !hrvWellBelow hrv_today d.hrv_30d_baseline then .solid
  else if scoreLT score 34 && (hrvWellBelow hrv_today d.hrv_30d_baseline
      || (d.rhr_elevated && cvHigh d.hrv_7d_cv2)) then .recovery
  else if scoreLT score 50 then .cautious
  else if hrvBelow hrv_today d.hrv_30d_baseline || d.rhr_elevated
      || cvHigh d.hrv_7d_cv2 then .cautious
  else .solid

/-- The color string attached to each status by the classifier. -/
def colorOf : Status → String
  | .primed => "#00F19F"
  | .solid => "#FFD600"
  | .recovery => "#FF4D4D"
  | .cautious => "#FF8C00"

/-- Python `abs` on the rational model: negate when negative.
(Mathlib's lattice `|.|` is avoided: its instance tower does not
reduce.) -/
def pyAbs (q : ℚ) : ℚ :=
  if q < 0 then -q else q

/-- The WHY bullets of the briefing, one constructor per f-string
template of `briefing.py` lines 125–206, carrying the numeric payloads
interpolated into the text.  `cvHighNote` and `cvStableNote` carry the
squared cv (see the file header). -/
inductive Why where
  | hrvDrop (a b c : ℚ)
  | hrvVsBaseline (today baseline : ℚ)
  | cvHighNote (cv2 : ℚ)
  | cvStableNote (cv2 : ℚ)
  | rhrVsBaseline (today baseline diff : ℚ)
  | recTrend (avg3 avg7 strain3 : ℚ)
  | strainLoad (s3 typical : ℚ)
  | elevationNote
  | respiratoryNote
deriving DecidableEq

/-- The six threshold-gated observation bullets, in the order the source
appends them (HRV consecutive drop; HRV vs baseline when the absolute
difference exceeds 3; HRV CV when above 15, or at most 8 while primed;
RHR when the absolute difference from baseline is at least 2; recovery
trending down; strain high). -/
def whyObservations (hrv_today rhr_today : Option ℚ) (st : Status)
    (d : Derived) : List Why :=
  (if d.hrv_dropping ∧ 3 ≤ d.hrv_values.length then
      match lastN 3 d.hrv_values with
      | a :: b :: c :: _ => [Why.hrvDrop a b c]
      | _ => []
    else [])
  ++ (match hrv_today, d.hrv_30d_baseline with
      | some h, some b => if 3 < pyAbs (h - b) then [Why.hrvVsBaseline h b] else []
      | _, _ => [])
  ++ (match d.hrv_7d_cv2 with
      | some c =>
          if 225 < c then [Why.cvHighNote c]
          else if c ≤ 64 ∧ st = Status.primed then [Why.cvStableNote c]
          else []
      | none => [])
  ++ (match rhr_today, d.rhr_30d_baseline, d.rhr_diff with
      | some r, some b, some diff =>
          if 2 ≤ pyAbs diff then [Why.rhrVsBaseline r b diff] else []
      | _, _, _ => [])
  ++ (match d.rec_3d_avg, d.rec_7d_avg with
      | some a3, some a7 =>
          if d.rec_trending_down then [Why.recTrend a3 a7 d.strain_3d] else []
      | _, _ => [])
  ++ (match d.strain_typical_3d with
      | some ty => if d.strain_high then [Why.strainLoad d.strain_3d ty] else []
      | none => [])

/-- The WHY list exactly as `briefing.py` builds it: the gated
observations, then the elevation note when fewer than three bullets
stand, then the respiratory note when additionally the score is below
50, then truncation to three (`why = why[:3]`). -/
def whyCode (score hrv_today rhr_today : Option ℚ) (st : Status)
    (d : Derived) : List Why :=
  let w := whyObservations hrv_today rhr_today st d
  let w := w ++ (if w = [] ∨ w.length < 3 then [Why.elevationNote] else [])
  let w := w ++ (if scoreLT score 50 = true ∧ w.length < 3
    then [Why.respiratoryNote] else [])
  w.take 3

/-- The same list restated as the claims read it: the full candidate
sequence — observations, elevation note, respiratory note when the
score is below 50 — cut to its first three entries
(`whyCode_eq_take` proves the two agree). -/
def whyCandidates (score hrv_today rhr_today : Option ℚ) (st : Status)
    (d : Derived) : List Why :=
  whyObservations hrv_today rhr_today st d
    ++ [Why.elevationNote]
    ++ (if scoreLT score 50 = true then [Why.respiratoryNote] else [])

/-- The action strings of `briefing.py` lines 212–238, one constructor
per distinct string literal. -/
inductive Action where
  | tempoEffort
  | zone2Warmup
  | hydrate
  | normalEasyPace
  | limitUnder5
  | pushDistance
  | conversationalUnder5
  | cutShortIfOff
  | nasalBreathing
  | stretching
  | restDay
  | jogOnly
  | prioritizeSleep
deriving DecidableEq

/-- The action lookup of `briefing.py` lines 212–238: keyed on the
status, branched on `strain_high` within solid and on `hrv_dropping`
within cautious. -/
def actionsFor (st : Status) (strain_high hrv_dropping : Bool) : List Action :=
  match st with
  | .primed => [.tempoEffort, .zone2Warmup, .hydrate]
  | .solid => [.normalEasyPace,
      if strain_high then .limitUnder5 else .pushDistance, .hydrate]
  | .cautious => [.conversationalUnder5,
      if hrv_dropping then .cutShortIfOff else .nasalBreathing, .stretching]
  | .recovery => [.restDay, .jogOnly, .prioritizeSleep]

/-- Python 3 `round`: round-half-to-even (bankers rounding) to an
integer.  `round` of Mathlib rounds halves up, so the half case is
split off. -/
def bankersRound (q : ℚ) : ℤ :=
  if q - ⌊q⌋ = 1 / 2 then (if ⌊q⌋ % 2 = 0 then ⌊q⌋ else ⌊q⌋ + 1)
  else round q

/-- Python `round(x, 1)` on the rational model. -/
def pyRound1 (q : ℚ) : ℚ :=
  (bankersRound (q * 10) : ℚ) / 10

/-- The `metrics` dict of the briefing (`briefing.py` lines 244–256).
`rhr_today` is `round(x)` with no digits, hence an integer.
`hrv_7d_cv2` stands for the `hrv_7d_cv` entry: it keeps the squared,
unrounded cv — its presence or absence matches the source exactly, its
displayed magnitude is not modelled (square root). -/
structure Metrics where
  recovery_score : Option ℚ
  hrv_today : Option ℚ
  rhr_today : Option ℤ
  hrv_7d_avg : Option ℚ
  hrv_7d_cv2 : Option ℚ
  hrv_30d_baseline : Option ℚ
  rhr_7d_avg : Option ℚ
  rhr_30d_baseline : Option ℚ
  rec_3d_avg : Option ℚ
  strain_3d : Option ℚ
  strain_typical_3d : Option ℚ
deriving DecidableEq

/-- Builds the `metrics` dict.  Every entry is guarded by
`if x is not None` in the source — except `strain_3d`, guarded by bare
Python truthiness (`if strain_3d`), which maps the number `0` to `None`
as well. -/
def buildMetrics (score hrv_today rhr_today : Option ℚ) (d : Derived) :
    Metrics :=
  { recovery_score := score.map pyRound1
    hrv_today := hrv_today.map pyRound1
    rhr_today := rhr_today.map bankersRound
    hrv_7d_avg := d.hrv_7d_avg.map pyRound1
    hrv_7d_cv2 := d.hrv_7d_cv2
    hrv_30d_baseline := d.hrv_30d_baseline.map pyRound1
    rhr_7d_avg := d.rhr_7d_avg.map pyRound1
    rhr_30d_baseline := d.rhr_30d_baseline.map pyRound1
    rec_3d_avg := d.rec_3d_avg.map pyRound1
    strain_3d := if d.strain_3d = 0 then none else some (pyRound1 d.strain_3d)
    strain_typical_3d := d.strain_typical_3d.map pyRound1 }

/-- The briefing dict returned by `generate_briefing` on success.
The `status_label` string of the source is a fixed English sentence per
status (a function of `status` alone) and is not modelled separately. -/
structure Briefing where
  status : Status
  color : String
  why : List Why
  actions : List Action
  metrics : Metrics
deriving DecidableEq

/-- The body of `generate_briefing` past the sentinel check
(`briefing.py` lines 38–265). -/
def assemble (t : TodayRecovery) (rh : List RecoveryRecord)
    (rn : List RunStrainRecord) : Briefing :=
  let d := derive t rh rn
  let st := statusOf t.recovery_score t.hrv d
  { status := st
    color := colorOf st
    why := whyCode t.recovery_score t.hrv t.resting_hr st d
    actions := (actionsFor st d.strain_high d.hrv_dropping).take 3
    metrics := buildMetrics t.recovery_score t.hrv t.resting_hr d }

/-- `generate_briefing` of `briefing.py`: `None` when both the score
and the HRV of the day are absent, otherwise the assembled briefing. -/
def generate_briefing (t : TodayRecovery) (rh : List RecoveryRecord)
    (rn : List RunStrainRecord) : Option Briefing :=
  if t.recovery_score = none ∧ t.hrv = none then none
  else some (assemble t rh rn)

/-!
## The exception-threaded aggregator

Python raises on `statistics.mean` of an empty sequence, on
`statistics.stdev` of fewer than two points and on division by zero.
`deriveE` re-runs the derived-metric block with those three primitives
as `Except` actions that fail exactly where CPython raises; the theorem
for the safety claim proves it always returns `Except.ok` of the pure
result, i.e. that every raising primitive sits behind a sufficient
guard in the source.
-/

/-- `statistics.mean`, raising `StatisticsError` on empty input. -/
def meanE (l : List ℚ) : Except String ℚ :=
  if l.isEmpty then .error "StatisticsError: mean requires at least one data point"
  else .ok (meanQ l)

/-- The square of `statistics.stdev`, raising on fewer than two points. -/
def svarE (l : List ℚ) : Except String ℚ :=
  if l.length < 2 then .error "StatisticsError: variance requires at least two data points"
  else .ok (svar l)

/-- Division, raising `ZeroDivisionError` on a zero divisor. -/
def divE (a b : ℚ) : Except String ℚ :=
  if b = 0 then .error "ZeroDivisionError: division by zero"
  else .ok (a / b)

/-- The `statistics.mean(x) if x else None` idiom, raising where
`statistics.mean` would. -/
def meanOptE (l : List ℚ) : Except String (Option ℚ) :=
  if l.isEmpty then .ok none else (meanE l).map some

/-- The cv computation with raising primitives. -/
def cv2OfE (hrv_7d : List ℚ) (hrv_7d_avg : Option ℚ) :
    Except String (Option ℚ) :=
  match hrv_7d_avg with
  | some a =>
      if 3 ≤ hrv_7d.length ∧ a ≠ 0 ∧ 0 < a then do
        let v ← svarE hrv_7d
        let c ← divE v (a ^ 2)
        pure (some (c * 10000))
      else pure none
  | none => pure none

/-- The `strain_typical_3d` computation with a raising division. -/
def typicalE (strain_30d_total : ℚ) (strain_days : ℕ) :
    Except String (Option ℚ) :=
  if 0 < strain_days then (divE strain_30d_total strain_days).map
    (fun x => some (x * 3))
  else pure none

/-- The derived-metric block with raising primitives threaded through
`Except`, statement for statement parallel to `derive`. -/
def deriveE (t : TodayRecovery) (recovery_history : List RecoveryRecord)
    (run_history : List RunStrainRecord) : Except String Derived := do
  let hrv_values := hrvVals recovery_history
  let rhr_values := rhrVals recovery_history
  let rec_values := recVals recovery_history
  let hrv_7d := if 7 ≤ hrv_values.length then lastN 7 hrv_values else hrv_values
  let hrv_7d_avg ← meanOptE hrv_7d
  let hrv_30d_baseline ← meanOptE hrv_values
  let hrv_7d_cv2 ← cv2OfE hrv_7d hrv_7d_avg
  let hrv_dropping := droppingOf hrv_values
  let rhr_7d := if 7 ≤ rhr_values.length then lastN 7 rhr_values else rhr_values
  let rhr_7d_avg ← meanOptE rhr_7d
  let rhr_30d_baseline ← meanOptE rhr_values
  let rhr_diff := rhrDiffOf t.resting_hr rhr_30d_baseline
  let rhr_elevated := match rhr_diff with
    | some d => decide (3 ≤ d)
    | none => false
  let rec_last3 := if 3 ≤ rec_values.length then lastN 3 rec_values else rec_values
  let rec_7d := if 7 ≤ rec_values.length then lastN 7 rec_values else rec_values
  let rec_3d_avg ← meanOptE rec_last3
  let rec_7d_avg ← meanOptE rec_7d
  let rec_trending_down := match rec_3d_avg, rec_7d_avg with
    | some a3, some a7 => decide (a3 < a7 - 5)
    | _, _ => false
  let strain_values := strainVals run_history
  let strain_3d := if 3 ≤ strain_values.length then (lastN 3 strain_values).sum
    else strain_values.sum
  let strain_30d_total := if strain_values.isEmpty then 0 else strain_values.sum
  let strain_days := strain_values.length
  let strain_typical_3d ← typicalE strain_30d_total strain_days
  let strain_high := match strain_typical_3d with
    | some ty => decide (0 < ty) && decide (ty * 1.25 < strain_3d)
    | none => false
  pure
    { hrv_values := hrv_values
      hrv_7d := hrv_7d
      hrv_7d_avg := hrv_7d_avg
      hrv_30d_baseline := hrv_30d_baseline
      hrv_7d_cv2 := hrv_7d_cv2
      hrv_dropping := hrv_dropping
      rhr_values := rhr_values
      rhr_7d_avg := rhr_7d_avg
      rhr_30d_baseline := rhr_30d_baseline
      rhr_diff := rhr_diff
      rhr_elevated := rhr_elevated
      rec_3d_avg := rec_3d_avg
      rec_7d_avg := rec_7d_avg
      rec_trending_down := rec_trending_down
      strain_values := strain_values
      strain_3d := strain_3d
      strain_typical_3d := strain_typical_3d
      strain_high := strain_high }

/-- `generate_briefing` with the raising primitives threaded through. -/
def generate_briefingE (t : TodayRecovery) (rh : List RecoveryRecord)
    (rn : List RunStrainRecord) : Except String (Option Briefing) :=
  if t.recovery_score = none ∧ t.hrv = none then .ok none
  else do
    let d ← deriveE t rh rn
    let st := statusOf t.recovery_score t.hrv d
    pure (some
      { status := st
        color := colorOf st
        why := whyCode t.recovery_score t.hrv t.resting_hr st d
        actions := (actionsFor st d.strain_high d.hrv_dropping).take 3
        metrics := buildMetrics t.recovery_score t.hrv t.resting_hr d })

/-!
## Pace strings (`app.py`)

Python strings are modelled as lists of Unicode code points.  `int()`
is modelled on an optional ASCII sign followed by ASCII digits (the
full builtin also strips whitespace and accepts other Unicode digit
scripts; no caller in this repository feeds it those).
-/

/-- A Python string: its list of Unicode code points. -/
abbrev PyStr := List ℕ

/-- The code point of the colon. -/
def chColon : ℕ := 58

/-- ASCII digit test on a code point. -/
def isDigitCp (c : ℕ) : Bool :=
  decide (48 ≤ c ∧ c ≤ 57)

/-- The value of a run of digit code points, most significant first. -/
def digitsVal (l : List ℕ) : ℕ :=
  l.foldl (fun a c => a * 10 + (c - 48)) 0

/-- `int()` on an unsigned run: `None` when empty or when any code
point is not a digit. -/
def pyIntNat (l : List ℕ) : Option ℕ :=
  if l ≠ [] ∧ l.all isDigitCp then some (digitsVal l) else none

/-- `int()` with an optional ASCII sign (45 is the minus sign, 43 the
plus sign). -/
def pyInt (l : List ℕ) : Option ℤ :=
  if l.head? = some 45 then (pyIntNat l.tail).map (fun n => -(n : ℤ))
  else if l.head? = some 43 then (pyIntNat l.tail).map (fun n => (n : ℤ))
  else (pyIntNat l).map (fun n => (n : ℤ))

/-- Not the colon, as a boolean test. -/
def notColon (c : ℕ) : Bool :=
  c != chColon

/-- `str.split(":")[0]`: the code points before the first colon. -/
def part0 (l : List ℕ) : List ℕ :=
  l.takeWhile notColon

/-- `str.split(":")[1]`: the code points between the first colon and
the next one (or the end). -/
def part1 (l : List ℕ) : List ℕ :=
  ((l.dropWhile notColon).tail).takeWhile notColon

/-- `pace_str_to_seconds` of `app.py`: `None` for a falsy or
colon-free input, otherwise `int(parts[0]) * 60 + int(parts[1])` with
`None` on a `ValueError` from either `int()`. -/
def pace_str_to_seconds (pace_str : Option PyStr) : Option ℤ :=
  match pace_str with
  | none => none
  | some l =>
      if l = [] ∨ ¬ l.contains chColon then none
      else
        match pyInt (part0 l), pyInt (part1 l) with
        | some a, some b => some (a * 60 + b)
        | _, _ => none

/-- The little-endian decimal digits of `n`, computed with explicit
fuel so that the definition is structurally recursive (and therefore
reduces inside the kernel); with `n` itself as fuel it agrees with
`Nat.digits 10 n` (`toDigitsRev_eq_digits`). -/
def toDigitsRev (fuel n : ℕ) : List ℕ :=
  match fuel with
  | 0 => []
  | fuel + 1 => if n = 0 then [] else n % 10 :: toDigitsRev fuel (n / 10)

/-- `str(n)` on a natural number: its decimal rendering, no leading
zeros, `"0"` for zero. -/
def natRepr (n : ℕ) : List ℕ :=
  if n = 0 then [48] else ((toDigitsRev n n).reverse.map (fun d => 48 + d))

/-- Python `f"{s:02d}"` for `0 ≤ s`: the decimal rendering padded to
two characters with a leading zero. -/
def pad2 (s : ℕ) : List ℕ :=
  if s < 10 then 48 :: natRepr s else natRepr s

/-- The string `"N/A"`. -/
def strNA : List ℕ := [78, 47, 65]

/-- `seconds_to_pace` of `app.py`: `"N/A"` for `None` or a
non-positive count, otherwise `f"{secs // 60}:{secs % 60:02d}"`. -/
def seconds_to_pace (secs : Option ℤ) : PyStr :=
  match secs with
  | none => strNA
  | some s => if s ≤ 0 then strNA
      else natRepr (s.toNat / 60) ++ chColon :: pad2 (s.toNat % 60)

/-- A well-formed `"M:SS"` pace string: the canonical decimal rendering
of the minutes, a colon, and the seconds zero-padded to two digits.
This is the shape named by the round-trip claim (and the shape
`seconds_to_pace` itself emits). -/
def renderPace (m s : ℕ) : PyStr :=
  natRepr m ++ chColon :: pad2 s

/-!
## The coaching-insight engine (`app.py`, `generate_coaching_insight`)

The source function queries the `Run` table from the database
(`session.query(Run).all()`) before filtering; the run table is
therefore an input of the embedding (`runsTable`), made explicit.
The outcome is one of six message templates; the embedding returns the
chosen template together with the values interpolated into it, not the
rendered English text.
-/

/-- A run row as the coaching logic reads it: the date (a day number),
`pace_per_mile` (a string or absent) and `avg_hr` after
`safe_float` / `pd.to_numeric` coercion (a number or absent). -/
structure RunRow where
  date : ℤ
  pace_per_mile : Option PyStr
  avg_hr : Option ℚ
deriving DecidableEq

/-- The `recovery_data` dict passed to the coaching generator, after
`safe_float` on each field. -/
structure RecoveryData where
  recovery_score : Option ℚ
  resting_heart_rate : Option ℚ
  hrv_rmssd_milli : Option ℚ
deriving DecidableEq

/-- The recovery-context clause appended to the insight when a
recovery score is available: the score and the optional RHR and HRV
read out next to it. -/
structure RecContext where
  score : ℚ
  rhr : Option ℚ
  hrv : Option ℚ
deriving DecidableEq

/-- The six message templates of `generate_coaching_insight`, with the
values interpolated into each. -/
inductive InsightBranch where
  | runLogged
  | buildingBaseline (paceDisplay : PyStr)
  | fitnessImproved (paceDisplay : PyStr) (oldHr newHr : ℚ) (faster : PyStr)
  | cautionLowRecovery (hrDiff score : ℚ)
  | elevatedNeutral
  | solidConsistent (paceDisplay : PyStr)
deriving DecidableEq

/-- The full coaching insight: the chosen template plus the recovery
clause (present exactly when the recovery score is). -/
structure Insight where
  branch : InsightBranch
  recovery : Option RecContext
deriving DecidableEq

/-- The rows surviving the two `dropna` calls, tupled as
(date, pace seconds, HR). -/
def dfRows (runsTable : List RunRow) : List (ℤ × ℤ × ℚ) :=
  runsTable.filterMap (fun r =>
    match pace_str_to_seconds r.pace_per_mile, r.avg_hr with
    | some ps, some hr => some (r.date, ps, hr)
    | _, _ => none)

/-- The similar-pace cohort: rows of the trailing 30 days, strictly
before the reference day, whose pace is within 30 seconds per mile of
the pace of the day. -/
def similarRuns (runsTable : List RunRow) (today : ℤ) (today_pace_sec : ℤ) :
    List (ℤ × ℤ × ℚ) :=
  (dfRows runsTable).filter (fun x =>
    decide (today - 30 ≤ x.1) && decide (x.1 < today)
      && decide ((x.2.1 - today_pace_sec).natAbs ≤ 30))

/-- `generate_coaching_insight` of `app.py`, with the database read
made an explicit argument (`runsTable` is what
`session.query(Run).all()` returns). -/
def generate_coaching_insight (runsTable : List RunRow) (row : RunRow)
    (recovery_data : Option RecoveryData) : Insight :=
  let today_pace_sec := pace_str_to_seconds row.pace_per_mile
  let today_hr := row.avg_hr
  let rec_score := recovery_data.bind (fun r => r.recovery_score)
  let rec_rhr := recovery_data.bind (fun r => r.resting_heart_rate)
  let rec_hrv := recovery_data.bind (fun r => r.hrv_rmssd_milli)
  let recovery_line := rec_score.map (fun s =>
    { score := s, rhr := rec_rhr, hrv := rec_hrv : RecContext })
  match today_pace_sec, today_hr with
  | some tps, some thr =>
      let pace_display := seconds_to_pace (some tps)
      if runsTable.isEmpty then
        { branch := .buildingBaseline pace_display, recovery := recovery_line }
      else
        let similar := similarRuns runsTable row.date tps
        if 3 ≤ similar.length then
          let avg_similar_hr := meanQ (similar.map (fun x => x.2.2))
          let hr_diff := thr - avg_similar_hr
          if hr_diff < -3 then
            { branch := .fitnessImproved pace_display avg_similar_hr thr
                (seconds_to_pace (some (tps - 10)))
              recovery := recovery_line }
          else if 3 < hr_diff ∧ scoreLT rec_score 50 = true then
            { branch := .cautionLowRecovery hr_diff
                (rec_score.getD 0)
              recovery := recovery_line }
          else if 3 < hr_diff then
            { branch := .elevatedNeutral, recovery := recovery_line }
          else
            { branch := .solidConsistent pace_display
              recovery := recovery_line }
        else
          { branch := .buildingBaseline pace_display
            recovery := recovery_line }
  | _, _ => { branch := .runLogged, recovery := recovery_line }

/-!
## The world-threaded wrappers (purity / no-I/O)

Every I/O primitive of the runtime is modelled as taking and returning
the world.  The body of `generate_briefing` contains no I/O statement,
so its wrapper hands the world through untouched; the body of
`generate_coaching_insight` contains exactly one I/O statement, the
database read `session.query(Run).all()`, modelled as reading the
`runsTable` component of the world.
-/

/-- The ambient world: the persisted run table, and an abstract
remainder standing for every other piece of mutable environment
(clock, file system, network). -/
structure World where
  runsTable : List RunRow
  rest : ℤ
deriving DecidableEq

/-- `generate_briefing` threaded through the world: its body performs
no I/O, so the world passes through unchanged and unread. -/
def generate_briefingW (w : World) (t : TodayRecovery)
    (rh : List RecoveryRecord) (rn : List RunStrainRecord) :
    World × Option Briefing :=
  (w, generate_briefing t rh rn)

/-- `generate_coaching_insight` threaded through the world: its body
performs one read (the run-table query) and no write. -/
def generate_coaching_insightW (w : World) (row : RunRow)
    (recovery_data : Option RecoveryData) : World × Insight :=
  (w, generate_coaching_insight w.runsTable row recovery_data)

/-!
## Spec-side formulations

These definitions follow the words of the specification and of the
claims, to be compared against the embedded source.  Comparisons with
an absent operand are false, as the spec's predicate definitions
(`hrv_above`, `cv_low`, ...) have it.
-/

/-- Spec-side comparison: the left value is present, the right value is
present, and left at least right. -/
def oGE (a b : Option ℚ) : Bool :=
  match a, b with
  | some x, some y => decide (y ≤ x)
  | _, _ => false

/-- Spec-side comparison: both present and left strictly below right. -/
def oLT (a b : Option ℚ) : Bool :=
  match a, b with
  | some x, some y => decide (x < y)
  | _, _ => false

/-- Spec-side predicate: today is present, the baseline is present, and
today is strictly below the baseline minus `k`. -/
def belowBy (today baseline : Option ℚ) (k : ℚ) : Bool :=
  match today, baseline with
  | some x, some y => decide (x < y - k)
  | _, _ => false

/-- Spec-side predicate: the (squared) cv is present and at most `k`. -/
def cvAtMost (cv2 : Option ℚ) (k : ℚ) : Bool :=
  match cv2 with
  | some c => decide (c ≤ k)
  | none => false

/-- Spec-side predicate: the (squared) cv is present and above `k`. -/
def cvMore (cv2 : Option ℚ) (k : ℚ) : Bool :=
  match cv2 with
  | some c => decide (k < c)
  | none => false

/-- The five-step decision table exactly as the claim words it, first
match winning.  Note step (5): the claim requires the score to be
*present* there ("score present but none of the above").  On the
squared cv encoding the bounds 10 and 15 become 100 and 225. -/
def specStatusTable (score hrv_today baseline : Option ℚ)
    (rhr_elevated : Bool) (cv2 : Option ℚ) : Status :=
  if oGE score (some 67) && oGE hrv_today baseline && !rhr_elevated
      && cvAtMost cv2 100 then .primed
  else if oGE score (some 50) && !rhr_elevated
      && !belowBy hrv_today baseline 10 then .solid
  else if oLT score (some 34) && (belowBy hrv_today baseline 10
      || (rhr_elevated && cvMore cv2 225)) then .recovery
  else if oLT score (some 50) then .cautious
  else if score.isSome && (belowBy hrv_today baseline 5 || rhr_elevated
      || cvMore cv2 225) then .cautious
  else .solid

/-- The decision table amended by the counterexample: identical to
`specStatusTable` except that step (5) drops the "score present"
requirement — it fires whenever none of steps (1)–(4) matched and
(hrv below baseline−5, or RHR elevated, or cv high). -/
def specStatusAmended (score hrv_today baseline : Option ℚ)
    (rhr_elevated : Bool) (cv2 : Option ℚ) : Status :=
  if oGE score (some 67) && oGE hrv_today baseline && !rhr_elevated
      && cvAtMost cv2 100 then .primed
  else if oGE score (some 50) && !rhr_elevated
      && !belowBy hrv_today baseline 10 then .solid
  else if oLT score (some 34) && (belowBy hrv_today baseline 10
      || (rhr_elevated && cvMore cv2 225)) then .recovery
  else if oLT score (some 50) then .cautious
  else if belowBy hrv_today baseline 5 || rhr_elevated
      || cvMore cv2 225 then .cautious
  else .solid

/-- Python `l[-k:]` on a record list. -/
def lastNRec (k : ℕ) (l : List RecoveryRecord) : List RecoveryRecord :=
  l.drop (l.length - k)

/-- The 7-day HRV average as the claim words it: the mean of the HRV
values *present in the trailing 7 days* of the history (the history
holds at most one record per day). -/
def specHrv7dAvg (rh : List RecoveryRecord) : Option ℚ :=
  meanOpt ((lastNRec 7 rh).filterMap (fun r => r.hrv))

/-- The 3-day strain sum as the claim words it: the sum of the last 3
available strain values, or of all of them when fewer than 3 exist
(`lastN` already returns the whole list in that case). -/
def specStrain3 (vals : List ℚ) : ℚ :=
  (lastN 3 vals).sum

/-- The typical 3-day strain as the claim words it. -/
def specStrainTypical (vals : List ℚ) : Option ℚ :=
  if vals = [] then none else some (vals.sum / (vals.length : ℚ) * 3)

/-!
## Concrete inputs used by the witnesses and counterexamples
-/

/-- Today reading of the primed example of the classifier claim:
score 70, HRV 55, no RHR. -/
def c1wToday : TodayRecovery := ⟨some 70, some 55, none⟩

/-- History of the primed example: three days of HRV 46, 50, 54 —
baseline 50, sample stdev 4, so cv = 8 (cv² = 64). -/
def c1wHist : List RecoveryRecord :=
  [⟨1, none, some 46, none⟩, ⟨2, none, some 50, none⟩, ⟨3, none, some 54, none⟩]

/-- Today reading of the classifier counterexample: no score, HRV 55. -/
def c1cToday : TodayRecovery := ⟨none, some 55, none⟩

/-- History of the classifier counterexample: one day of HRV 70, so the
baseline is 70 and today (55) is below baseline minus 5. -/
def c1cHist : List RecoveryRecord := [⟨1, none, some 70, none⟩]

/-- Today reading of the narrative example: score 40, HRV 40. -/
def c3Today : TodayRecovery := ⟨some 40, some 40, none⟩

/-- History of the narrative example: HRV 80, 60, 40 — three straight
drops, today 20 below the baseline of 60, cv² = 10000/9 > 225.  Three
gated observations apply at once. -/
def c3Hist : List RecoveryRecord :=
  [⟨1, none, some 80, none⟩, ⟨2, none, some 60, none⟩, ⟨3, none, some 40, none⟩]

/-- A today reading with a score only, reused where the recovery side
is irrelevant. -/
def scoreOnlyToday : TodayRecovery := ⟨some 70, none, none⟩

/-- Run history realising `strain_typical_3d = 10`, `strain_3d = 13`
(total 20 over 6 days, last three 5 + 4 + 4). -/
def c5RunsA : List RunStrainRecord :=
  [⟨1, some 3⟩, ⟨2, some 2⟩, ⟨3, some 2⟩, ⟨4, some 5⟩, ⟨5, some 4⟩, ⟨6, some 4⟩]

/-- Run history realising `strain_typical_3d = 10`,
`strain_3d = 12.5` exactly (the boundary). -/
def c5RunsB : List RunStrainRecord :=
  [⟨1, some 3⟩, ⟨2, some (5 / 2)⟩, ⟨3, some 2⟩,
   ⟨4, some 4⟩, ⟨5, some (9 / 2)⟩, ⟨6, some (4 : ℚ)⟩]

/-- A today reading with an HRV only (so a briefing is produced). -/
def c6Today : TodayRecovery := ⟨none, some 50, none⟩

/-- History of the 7-day-average counterexample: HRV present on day 1
(value 10) and day 8 (value 20), absent on days 2–7.  The last seven
*present* values are [10, 20] (mean 15); the values present in the
trailing seven *days* are [20] (mean 20). -/
def c8Hist : List RecoveryRecord :=
  [⟨1, none, some 10, none⟩, ⟨2, none, none, none⟩, ⟨3, none, none, none⟩,
   ⟨4, none, none, none⟩, ⟨5, none, none, none⟩, ⟨6, none, none, none⟩,
   ⟨7, none, none, none⟩, ⟨8, none, some 20, none⟩]

/-- Reference run of the coaching witness: day 100, pace 8:00
(480 s/mi), HR 145. -/
def c4Row : RunRow := ⟨100, some (renderPace 8 0), some 145⟩

/-- Run table of the coaching witness: three prior runs at the same
pace with HR 150 — a cohort of three with mean HR 150. -/
def c4Db : List RunRow :=
  [⟨99, some (renderPace 8 0), some 150⟩,
   ⟨98, some (renderPace 8 0), some 150⟩,
   ⟨97, some (renderPace 8 0), some 150⟩]

/-- Reference run of the purity counterexample: day 100, pace 8:00,
HR 150. -/
def c9Row : RunRow := ⟨100, some (renderPace 8 0), some 150⟩

/-- A run table under which the coaching insight differs from the
empty-table insight at the same arguments. -/
def c9Db : List RunRow :=
  [⟨99, some (renderPace 8 0), some 160⟩,
   ⟨98, some (renderPace 8 0), some 160⟩,
   ⟨97, some (renderPace 8 0), some 160⟩]

/-- Run history whose strain values are all zero: the strain sum is a
genuine 0. -/
def c10Runs : List RunStrainRecord := [⟨1, some 0⟩]

/-!
## The derived records of the concrete inputs, spelled out
-/

/-- `derive` at the primed-example input. -/
def c1wD : Derived :=
  { hrv_values := [46, 50, 54]
    hrv_7d := [46, 50, 54]
    hrv_7d_avg := some 50
    hrv_30d_baseline := some 50
    hrv_7d_cv2 := some 64
    hrv_dropping := false
    rhr_values := []
    rhr_7d_avg := none
    rhr_30d_baseline := none
    rhr_diff := none
    rhr_elevated := false
    rec_3d_avg := none
    rec_7d_avg := none
    rec_trending_down := false
    strain_values := []
    strain_3d := 0
    strain_typical_3d := none
    strain_high := false }

/-- `derive` at the classifier-counterexample input. -/
def c1cD : Derived :=
  { hrv_values := [70]
    hrv_7d := [70]
    hrv_7d_avg := some 70
    hrv_30d_baseline := some 70
    hrv_7d_cv2 := none
    hrv_dropping := false
    rhr_values := []
    rhr_7d_avg := none
    rhr_30d_baseline := none
    rhr_diff := none
    rhr_elevated := false
    rec_3d_avg := none
    rec_7d_avg := none
    rec_trending_down := false
    strain_values := []
    strain_3d := 0
    strain_typical_3d := none
    strain_high := false }

/-- `derive` at the narrative-example input. -/
def c3D : Derived :=
  { hrv_values := [80, 60, 40]
    hrv_7d := [80, 60, 40]
    hrv_7d_avg := some 60
    hrv_30d_baseline := some 60
    hrv_7d_cv2 := some (10000 / 9)
    hrv_dropping := true
    rhr_values := []
    rhr_7d_avg := none
    rhr_30d_baseline := none
    rhr_diff := none
    rhr_elevated := false
    rec_3d_avg := none
    rec_7d_avg := none
    rec_trending_down := false
    strain_values := []
    strain_3d := 0
    strain_typical_3d := none
    strain_high := false }

/-- `derive` at the strain-13 input. -/
def c5AD : Derived :=
  { hrv_values := []
    hrv_7d := []
    hrv_7d_avg := none
    hrv_30d_baseline := none
    hrv_7d_cv2 := none
    hrv_dropping := false
    rhr_values := []
    rhr_7d_avg := none
    rhr_30d_baseline := none
    rhr_diff := none
    rhr_elevated := false
    rec_3d_avg := none
    rec_7d_avg := none
    rec_trending_down := false
    strain_values := [3, 2, 2, 5, 4, 4]
    strain_3d := 13
    strain_typical_3d := some 10
    strain_high := true }

/-- `derive` at the strain-boundary input. -/
def c5BD : Derived :=
  { hrv_values := []
    hrv_7d := []
    hrv_7d_avg := none
    hrv_30d_baseline := none
    hrv_7d_cv2 := none
    hrv_dropping := false
    rhr_values := []
    rhr_7d_avg := none
    rhr_30d_baseline := none
    rhr_diff := none
    rhr_elevated := false
    rec_3d_avg := none
    rec_7d_avg := none
    rec_trending_down := false
    strain_values := [3, 5 / 2, 2, 4, 9 / 2, 4]
    strain_3d := 25 / 2
    strain_typical_3d := some 10
    strain_high := false }

/-- `derive` at the sparse-history input of the 7-day-average
counterexample. -/
def c8D : Derived :=
  { hrv_values := [10, 20]
    hrv_7d := [10, 20]
    hrv_7d_avg := some 15
    hrv_30d_baseline := some 15
    hrv_7d_cv2 := none
    hrv_dropping := false
    rhr_values := []
    rhr_7d_avg := none
    rhr_30d_baseline := none
    rhr_diff := none
    rhr_elevated := false
    rec_3d_avg := none
    rec_7d_avg := none
    rec_trending_down := false
    strain_values := []
    strain_3d := 0
    strain_typical_3d := none
    strain_high := false }

/-- `derive` at the all-zero-strain input. -/
def c10D : Derived :=
  { hrv_values := []
    hrv_7d := []
    hrv_7d_avg := none
    hrv_30d_baseline := none
    hrv_7d_cv2 := none
    hrv_dropping := false
    rhr_values := []
    rhr_7d_avg := none
    rhr_30d_baseline := none
    rhr_diff := none
    rhr_elevated := false
    rec_3d_avg := none
    rec_7d_avg := none
    rec_trending_down := false
    strain_values := [0]
    strain_3d := 0
    strain_typical_3d := some 0
    strain_high := false }

/-!
## Projections (used to state closed witness facts without binders)
-/

/-- The status field of a briefing. -/
def statusOfB (b : Briefing) : Status := b.status

/-- The why list of a briefing. -/
def whyOfB (b : Briefing) : List Why := b.why

/-- The length of the why list of a briefing. -/
def whyLenOfB (b : Briefing) : ℕ := b.why.length

/-- The length of the actions list of a briefing. -/
def actionsLenOfB (b : Briefing) : ℕ := b.actions.length

/-- The `strain_3d` metrics entry of a briefing. -/
def strain3MetricOfB (b : Briefing) : Option ℚ := b.metrics.strain_3d

/-- The `strain_typical_3d` metrics entry of a briefing. -/
def typicalMetricOfB (b : Briefing) : Option ℚ := b.metrics.strain_typical_3d

/-- The heart rates of the similar-pace cohort. -/
def cohortHrs (runsTable : List RunRow) (today : ℤ) (today_pace_sec : ℤ) :
    List ℚ :=
  (similarRuns runsTable today today_pace_sec).map (fun x => x.2.2)

/-!
## Theorems
-/

theorem meanOptE_eq (l : List ℚ) : meanOptE l = .ok (meanOpt l) := by
  unfold meanOptE meanOpt meanE
  split
  · rfl
  · rfl

theorem cv2OfE_eq (l : List ℚ) (a? : Option ℚ) :
    cv2OfE l a? = .ok (cv2Of l a?) := by
  cases a? with
  | none => rfl
  | some a =>
    simp only [cv2OfE, cv2Of]
    split
    · rename_i h
      obtain ⟨h3, hne, hpos⟩ := h
      have hs : svarE l = .ok (svar l) := by
        unfold svarE
        rw [if_neg (by omega)]
      have hd : divE (svar l) (a ^ 2) = .ok (svar l / a ^ 2) := by
        unfold divE
        rw [if_neg (pow_ne_zero 2 hne)]
      show (svarE l >>= fun v => divE v (a ^ 2)
        >>= fun c => pure (some (c * 10000))) = _
      rw [hs]
      show (divE (svar l) (a ^ 2) >>= fun c => pure (some (c * 10000))) = _
      rw [hd]
      rfl
    · rfl

theorem typicalE_eq (tot : ℚ) (days : ℕ) :
    typicalE tot days
      = .ok (if 0 < days then some (tot / (days : ℚ) * 3) else none) := by
  unfold typicalE
  split
  · rename_i h
    have hd : divE tot (days : ℚ) = .ok (tot / (days : ℚ)) := by
      unfold divE
      rw [if_neg (by exact_mod_cast Nat.pos_iff_ne_zero.mp h)]
    rw [hd]
    rfl
  · rfl

theorem deriveE_eq (t : TodayRecovery) (rh : List RecoveryRecord)
    (rn : List RunStrainRecord) : deriveE t rh rn = .ok (derive t rh rn) := by
  unfold deriveE derive
  simp only [meanOptE_eq, cv2OfE_eq, typicalE_eq]
  rfl

/-!
### Round-trip lemmas for pace strings
-/

theorem takeWhile_append_of_all {p : ℕ → Bool} (xs ys : List ℕ)
    (h : ∀ x ∈ xs, p x = true) :
    (xs ++ ys).takeWhile p = xs ++ ys.takeWhile p := by
  induction xs with
  | nil => rfl
  | cons a t ih =>
    simp only [List.cons_append, List.takeWhile_cons,
      h a (List.mem_cons_self a t), if_true]
    rw [ih (fun x hx => h x (List.mem_cons_of_mem a hx))]

theorem dropWhile_append_of_all {p : ℕ → Bool} (xs ys : List ℕ)
    (h : ∀ x ∈ xs, p x = true) :
    (xs ++ ys).dropWhile p = ys.dropWhile p := by
  induction xs with
  | nil => rfl
  | cons a t ih =>
    simp only [List.cons_append, List.dropWhile_cons,
      h a (List.mem_cons_self a t), if_true]
    exact ih (fun x hx => h x (List.mem_cons_of_mem a hx))

theorem toDigitsRev_eq_digits (fuel n : ℕ) (h : n ≤ fuel) :
    toDigitsRev fuel n = Nat.digits 10 n := by
  induction fuel generalizing n with
  | zero =>
    have h0 : n = 0 := Nat.le_zero.mp h
    subst h0
    simp [toDigitsRev]
  | succ fuel ih =>
    unfold toDigitsRev
    by_cases hn : n = 0
    · subst hn
      simp
    · rw [if_neg hn]
      rw [ih (n / 10) (by
        have hlt : n / 10 < n :=
          Nat.div_lt_self (Nat.pos_of_ne_zero hn) (by norm_num : (1 : ℕ) < 10)
        omega)]
      rw [Nat.digits_def' (by norm_num : (1 : ℕ) < 10) (Nat.pos_of_ne_zero hn)]

theorem mem_natRepr (n : ℕ) : ∀ c ∈ natRepr n, 48 ≤ c ∧ c ≤ 57 := by
  intro c hc
  unfold natRepr at hc
  split at hc
  · simp only [List.mem_singleton] at hc
    omega
  · rw [toDigitsRev_eq_digits n n le_rfl] at hc
    simp only [List.mem_map, List.mem_reverse] at hc
    obtain ⟨d, hd, rfl⟩ := hc
    have : d < 10 := Nat.digits_lt_base (by norm_num) hd
    omega

theorem natRepr_ne_nil (n : ℕ) : natRepr n ≠ [] := by
  unfold natRepr
  split
  · simp
  · rename_i h
    rw [toDigitsRev_eq_digits n n le_rfl]
    simp [Nat.digits_ne_nil_iff_ne_zero.mpr h]

theorem digitsVal_aux (L : List ℕ) (a : ℕ) :
    ((L.reverse.map (fun d => 48 + d)).foldl (fun x c => x * 10 + (c - 48)) a)
      = a * 10 ^ L.length + Nat.ofDigits 10 L := by
  induction L generalizing a with
  | nil => simp [Nat.ofDigits]
  | cons d T ih =>
    simp only [List.reverse_cons, List.map_append, List.map_cons,
      List.map_nil, List.foldl_append, List.foldl_cons, List.foldl_nil,
      List.length_cons]
    rw [ih a, Nat.ofDigits_cons, Nat.add_sub_cancel_left]
    ring

theorem digitsVal_natRepr (n : ℕ) : digitsVal (natRepr n) = n := by
  unfold digitsVal natRepr
  split
  · rename_i h
    subst h
    rfl
  · rw [toDigitsRev_eq_digits n n le_rfl]
    have := digitsVal_aux (Nat.digits 10 n) 0
    simpa [Nat.ofDigits_digits] using this

theorem all_isDigitCp_natRepr (n : ℕ) : (natRepr n).all isDigitCp = true := by
  rw [List.all_eq_true]
  intro c hc
  unfold isDigitCp
  exact decide_eq_true (mem_natRepr n c hc)

theorem pyIntNat_natRepr (n : ℕ) : pyIntNat (natRepr n) = some n := by
  unfold pyIntNat
  rw [if_pos ⟨natRepr_ne_nil n, all_isDigitCp_natRepr n⟩, digitsVal_natRepr]

theorem pyInt_of_digit_head (l : List ℕ)
    (h : ∀ c ∈ l, 48 ≤ c ∧ c ≤ 57) : pyInt l = (pyIntNat l).map
      (fun n => (n : ℤ)) := by
  unfold pyInt
  cases l with
  | nil => rfl
  | cons a t =>
    have ha := h a (List.mem_cons_self a t)
    rw [if_neg (by simp only [List.head?_cons, Option.some.injEq]; omega),
      if_neg (by simp only [List.head?_cons, Option.some.injEq]; omega)]

theorem pyInt_natRepr (n : ℕ) : pyInt (natRepr n) = some (n : ℤ) := by
  rw [pyInt_of_digit_head _ (mem_natRepr n), pyIntNat_natRepr]
  rfl

theorem mem_pad2 (s : ℕ) : ∀ c ∈ pad2 s, 48 ≤ c ∧ c ≤ 57 := by
  intro c hc
  unfold pad2 at hc
  split at hc
  · rcases List.mem_cons.mp hc with rfl | hc
    · omega
    · exact mem_natRepr s c hc
  · exact mem_natRepr s c hc

theorem pad2_ne_nil (s : ℕ) : pad2 s ≠ [] := by
  unfold pad2
  split
  · simp
  · exact natRepr_ne_nil s

theorem digitsVal_pad2 (s : ℕ) : digitsVal (pad2 s) = s := by
  unfold pad2
  split
  · show digitsVal (48 :: natRepr s) = s
    have : digitsVal (48 :: natRepr s) = digitsVal (natRepr s) := by
      unfold digitsVal
      rfl
    rw [this, digitsVal_natRepr]
  · exact digitsVal_natRepr s

theorem pyIntNat_pad2 (s : ℕ) : pyIntNat (pad2 s) = some s := by
  have hall : (pad2 s).all isDigitCp = true := by
    rw [List.all_eq_true]
    intro c hc
    unfold isDigitCp
    exact decide_eq_true (mem_pad2 s c hc)
  unfold pyIntNat
  rw [if_pos ⟨pad2_ne_nil s, hall⟩, digitsVal_pad2]

theorem pyInt_pad2 (s : ℕ) : pyInt (pad2 s) = some (s : ℤ) := by
  rw [pyInt_of_digit_head _ (mem_pad2 s), pyIntNat_pad2]
  rfl

theorem notColon_of_digit {c : ℕ} (h : 48 ≤ c ∧ c ≤ 57) :
    notColon c = true := by
  unfold notColon chColon
  rw [bne_iff_ne]
  omega

theorem notColon_colon : notColon chColon = false := by
  rfl

theorem part0_renderPace (m s : ℕ) : part0 (renderPace m s) = natRepr m := by
  unfold part0 renderPace
  rw [takeWhile_append_of_all _ _
    (fun x hx => notColon_of_digit (mem_natRepr m x hx))]
  rw [List.takeWhile_cons, notColon_colon]
  simp

theorem part1_renderPace (m s : ℕ) : part1 (renderPace m s) = pad2 s := by
  unfold part1 renderPace
  rw [dropWhile_append_of_all _ _
    (fun x hx => notColon_of_digit (mem_natRepr m x hx))]
  rw [List.dropWhile_cons, notColon_colon]
  simp only [Bool.false_eq_true, if_false, List.tail_cons]
  rw [List.takeWhile_eq_self_iff.mpr
    (fun x hx => notColon_of_digit (mem_pad2 s x hx))]

theorem renderPace_contains_colon (m s : ℕ) :
    (renderPace m s).contains chColon = true := by
  have h : chColon ∈ renderPace m s := by
    unfold renderPace
    exact List.mem_append_right _ (List.mem_cons_self _ _)
  exact List.elem_iff.mpr h

/-- Parsing a well-formed pace string recovers `m * 60 + s`. -/
theorem pace_str_to_seconds_renderPace (m s : ℕ) :
    pace_str_to_seconds (some (renderPace m s))
      = some ((m : ℤ) * 60 + (s : ℤ)) := by
  show (if renderPace m s = [] ∨ ¬ (renderPace m s).contains chColon then none
    else match pyInt (part0 (renderPace m s)), pyInt (part1 (renderPace m s)) with
      | some a, some b => some (a * 60 + b)
      | _, _ => none) = some ((m : ℤ) * 60 + (s : ℤ))
  rw [if_neg (by
    push_neg
    refine ⟨?_, by rw [renderPace_contains_colon m s]⟩
    unfold renderPace
    intro hnil
    exact natRepr_ne_nil m (List.append_eq_nil.mp hnil).1)]
  rw [part0_renderPace, part1_renderPace, pyInt_natRepr, pyInt_pad2]

/-!
## Helper lemmas
-/

theorem lastN_of_le (k : ℕ) (l : List ℚ) (h : l.length ≤ k) :
    lastN k l = l := by
  unfold lastN
  have h0 : l.length - k = 0 := by omega
  rw [h0, List.drop_zero]

theorem seconds_to_pace_mul (m s : ℕ) (hs : s < 60) (hpos : 0 < m * 60 + s) :
    seconds_to_pace (some ((m : ℤ) * 60 + (s : ℤ))) = renderPace m s := by
  have hcast : (m : ℤ) * 60 + (s : ℤ) = ((m * 60 + s : ℕ) : ℤ) := by
    push_cast
    ring
  show (if (m : ℤ) * 60 + (s : ℤ) ≤ 0 then strNA
    else natRepr (((m : ℤ) * 60 + (s : ℤ)).toNat / 60)
      ++ chColon :: pad2 (((m : ℤ) * 60 + (s : ℤ)).toNat % 60)) = renderPace m s
  rw [if_neg (by
    rw [hcast]
    exact not_le.mpr (by exact_mod_cast hpos))]
  rw [hcast, Int.toNat_natCast]
  have hd : (m * 60 + s) / 60 = m := by omega
  have hm : (m * 60 + s) % 60 = s := by omega
  rw [hd, hm]
  rfl

theorem generate_briefing_some {t : TodayRecovery} {rh : List RecoveryRecord}
    {rn : List RunStrainRecord} {b : Briefing}
    (h : generate_briefing t rh rn = some b) : b = assemble t rh rn := by
  unfold generate_briefing at h
  split at h
  · exact absurd h (by simp)
  · exact (Option.some.inj h).symm

theorem scoreGE_eq (s : Option ℚ) (k : ℚ) : scoreGE s k = oGE s (some k) := by
  cases s <;> rfl

theorem scoreLT_eq (s : Option ℚ) (k : ℚ) : scoreLT s k = oLT s (some k) := by
  cases s <;> rfl

theorem hrvAbove_eq (h b : Option ℚ) : hrvAbove h b = oGE h b := by
  cases h <;> cases b <;> rfl

theorem hrvBelow_eq (h b : Option ℚ) : hrvBelow h b = belowBy h b 5 := by
  cases h <;> cases b <;> rfl

theorem hrvWellBelow_eq (h b : Option ℚ) :
    hrvWellBelow h b = belowBy h b 10 := by
  cases h <;> cases b <;> rfl

theorem cvLow_eq (c : Option ℚ) : cvLow c = cvAtMost c 100 := by
  cases c <;> rfl

theorem cvHigh_eq (c : Option ℚ) : cvHigh c = cvMore c 225 := by
  cases c <;> rfl

/-- The if/elif chain of the source classifier computes the amended
decision table. -/
theorem statusOf_eq_spec (score hrv_today : Option ℚ) (d : Derived) :
    statusOf score hrv_today d
      = specStatusAmended score hrv_today d.hrv_30d_baseline
          d.rhr_elevated d.hrv_7d_cv2 := by
  unfold statusOf specStatusAmended
  simp only [scoreGE_eq, scoreLT_eq, hrvAbove_eq, hrvBelow_eq,
    hrvWellBelow_eq, cvLow_eq, cvHigh_eq]

theorem actionsFor_length (st : Status) (sh dr : Bool) :
    (actionsFor st sh dr).length = 3 := by
  cases st <;> rfl

theorem actionsFor_take (st : Status) (sh dr : Bool) :
    (actionsFor st sh dr).take 3 = actionsFor st sh dr := by
  cases st <;> rfl

/-- The conditional padding-and-truncation of the WHY list equals
truncating the full candidate sequence. -/
theorem whyCode_eq_take (score hrv_today rhr_today : Option ℚ) (st : Status)
    (d : Derived) :
    whyCode score hrv_today rhr_today st d
      = (whyCandidates score hrv_today rhr_today st d).take 3 := by
  unfold whyCode whyCandidates
  generalize whyObservations hrv_today rhr_today st d = g
  rcases g with _ | ⟨a, _ | ⟨b, _ | ⟨c, rest⟩⟩⟩
  · by_cases hP : scoreLT score 50 = true <;> simp [hP]
  · by_cases hP : scoreLT score 50 = true <;> simp [hP]
  · by_cases hP : scoreLT score 50 = true <;> simp [hP]
  · dsimp only
    rw [if_neg (by simp), List.append_nil]
    rw [if_neg (by simp), List.append_nil]
    simp [List.take_succ_cons]

/-- The strain-high boolean of the source, characterised. -/
theorem strainHighSpec (ty? : Option ℚ) (s3 : ℚ) :
    ((match ty? with
      | some ty => decide (0 < ty) && decide (ty * 1.25 < s3)
      | none => false) = true)
      ↔ ∃ ty, ty? = some ty ∧ 0 < ty ∧ ty * 1.25 < s3 := by
  cases ty? <;> simp

/-!
## Evaluation lemmas for the concrete inputs

`Rat` arithmetic is `@[irreducible]`, so concrete runs of the engine
are evaluated once per input into an explicit record; the claim
theorems rewrite with these.
-/

theorem c1w_derive : derive c1wToday c1wHist [] = c1wD := by
  norm_num [c1wD, derive, c1wToday, c1wHist, hrvVals, rhrVals, recVals, strainVals,
    meanOpt, meanQ, svar, lastN, cv2Of, droppingOf, rhrDiffOf,
    List.filterMap_cons, List.filterMap_nil]

theorem c1c_derive : derive c1cToday c1cHist [] = c1cD := by
  norm_num [c1cD, derive, c1cToday, c1cHist, hrvVals, rhrVals, recVals, strainVals,
    meanOpt, meanQ, svar, lastN, cv2Of, droppingOf, rhrDiffOf,
    List.filterMap_cons, List.filterMap_nil]

theorem c3_derive : derive c3Today c3Hist [] = c3D := by
  norm_num [c3D, derive, c3Today, c3Hist, hrvVals, rhrVals, recVals, strainVals,
    meanOpt, meanQ, svar, lastN, cv2Of, droppingOf, rhrDiffOf,
    List.filterMap_cons, List.filterMap_nil]

theorem c5A_derive : derive scoreOnlyToday [] c5RunsA = c5AD := by
  norm_num [c5AD, derive, scoreOnlyToday, c5RunsA, hrvVals, rhrVals, recVals,
    strainVals, meanOpt, meanQ, svar, lastN, cv2Of, droppingOf, rhrDiffOf,
    List.filterMap_cons, List.filterMap_nil]

theorem c5B_derive : derive scoreOnlyToday [] c5RunsB = c5BD := by
  norm_num [c5BD, derive, scoreOnlyToday, c5RunsB, hrvVals, rhrVals, recVals,
    strainVals, meanOpt, meanQ, svar, lastN, cv2Of, droppingOf, rhrDiffOf,
    List.filterMap_cons, List.filterMap_nil]

theorem c8_derive : derive c6Today c8Hist [] = c8D := by
  norm_num [c8D, derive, c6Today, c8Hist, hrvVals, rhrVals, recVals, strainVals,
    meanOpt, meanQ, svar, lastN, cv2Of, droppingOf, rhrDiffOf,
    List.filterMap_cons, List.filterMap_nil]

theorem c10_derive : derive scoreOnlyToday [] c10Runs = c10D := by
  norm_num [c10D, derive, scoreOnlyToday, c10Runs, hrvVals, rhrVals, recVals,
    strainVals, meanOpt, meanQ, svar, lastN, cv2Of, droppingOf, rhrDiffOf,
    List.filterMap_cons, List.filterMap_nil]

/-- The two cohort branches of the coaching insight, characterised for
any run with a parseable pace and HR: fewer than three similar-pace
prior runs give the building-baseline message whatever the HR delta;
three or more with today at least 3 bpm under the cohort mean give the
fitness-improved message whose suggested pace is the rendering of
`tps - 10` — ten seconds per mile faster. -/
theorem coaching_insight_branch (db : List RunRow) (row : RunRow)
    (rec : Option RecoveryData) (tps : ℤ) (thr : ℚ)
    (hp : pace_str_to_seconds row.pace_per_mile = some tps)
    (hh : row.avg_hr = some thr) :
    ((similarRuns db row.date tps).length < 3 →
      (generate_coaching_insight db row rec).branch
        = InsightBranch.buildingBaseline (seconds_to_pace (some tps)))
    ∧ (3 ≤ (similarRuns db row.date tps).length →
        thr - meanQ (cohortHrs db row.date tps) < -3 →
        (generate_coaching_insight db row rec).branch
          = InsightBranch.fitnessImproved (seconds_to_pace (some tps))
              (meanQ (cohortHrs db row.date tps)) thr
              (seconds_to_pace (some (tps - 10)))) := by
  simp only [generate_coaching_insight, hp, hh]
  constructor
  · intro hlt
    by_cases hemp : db.isEmpty
    · rw [if_pos hemp]
    · rw [if_neg hemp, if_neg (by omega)]
  · intro hge hdiff
    have hdiff2 : thr - meanQ (List.map (fun x => x.2.2)
        (similarRuns db row.date tps)) < -3 := hdiff
    by_cases hemp : db.isEmpty
    · exfalso
      have hdb : db = [] := by
        cases db with
        | nil => rfl
        | cons a l => simp [List.isEmpty] at hemp
      subst hdb
      simp [similarRuns, dfRows] at hge
    · rw [if_neg hemp, if_pos hge, if_pos hdiff2]
      rfl

/-!
## Pointwise evaluations at the concrete inputs
-/

theorem c1w_status : statusOf c1wToday.recovery_score c1wToday.hrv c1wD
    = Status.primed := by
  norm_num [statusOf, scoreGE, scoreLT, hrvAbove, hrvBelow, hrvWellBelow,
    cvHigh, cvLow, c1wToday, c1wD]

theorem c1w_spec : specStatusAmended c1wToday.recovery_score c1wToday.hrv
    c1wD.hrv_30d_baseline c1wD.rhr_elevated c1wD.hrv_7d_cv2
    = Status.primed := by
  norm_num [specStatusAmended, oGE, oLT, belowBy, cvAtMost, cvMore,
    c1wToday, c1wD]

theorem c1c_status : statusOf c1cToday.recovery_score c1cToday.hrv c1cD
    = Status.cautious := by
  norm_num [statusOf, scoreGE, scoreLT, hrvAbove, hrvBelow, hrvWellBelow,
    cvHigh, cvLow, c1cToday, c1cD]

theorem c1c_spec : specStatusTable c1cToday.recovery_score c1cToday.hrv
    c1cD.hrv_30d_baseline c1cD.rhr_elevated c1cD.hrv_7d_cv2
    = Status.solid := by
  norm_num [specStatusTable, oGE, oLT, belowBy, cvAtMost, cvMore,
    c1cToday, c1cD]

theorem c3_status : statusOf c3Today.recovery_score c3Today.hrv c3D
    = Status.cautious := by
  norm_num [statusOf, scoreGE, scoreLT, hrvAbove, hrvBelow, hrvWellBelow,
    cvHigh, cvLow, c3Today, c3D]

theorem c3_why : whyCode c3Today.recovery_score c3Today.hrv
    c3Today.resting_hr Status.cautious c3D
    = [Why.hrvDrop 80 60 40, Why.hrvVsBaseline 40 60,
        Why.cvHighNote (10000 / 9)] := by
  dsimp only [whyCode, whyObservations, scoreLT, c3Today, c3D]
  split_ifs <;> first
    | rfl
    | (exfalso; norm_num [pyAbs, lastN] at *)

/-!
## Claim theorems
-/

/-- **C1** (counterexample).  The claimed decision table is wrong about
the code at one point: its step (5) demands the score to be present,
but the source `elif hrv_below or rhr_elevated or cv_high` carries no
such guard.  With no score, HRV 55 and a baseline of 70 the code
classifies `cautious` while the claimed table reaches its default and
yields `solid`. -/
theorem c1_decision_table_cex :
    (generate_briefing c1cToday c1cHist []).map statusOfB
        = some Status.cautious
      ∧ specStatusTable c1cToday.recovery_score c1cToday.hrv
          (derive c1cToday c1cHist []).hrv_30d_baseline
          (derive c1cToday c1cHist []).rhr_elevated
          (derive c1cToday c1cHist []).hrv_7d_cv2 = Status.solid
      ∧ Status.cautious ≠ Status.solid := by
  refine ⟨?_, ?_, by decide⟩
  · rw [show generate_briefing c1cToday c1cHist []
        = some (assemble c1cToday c1cHist []) from rfl]
    show some (statusOfB (assemble c1cToday c1cHist [])) = some Status.cautious
    rw [show statusOfB (assemble c1cToday c1cHist [])
        = statusOf c1cToday.recovery_score c1cToday.hrv
            (derive c1cToday c1cHist []) from rfl, c1c_derive, c1c_status]
  · rw [c1c_derive]
    exact c1c_spec

/-- **C1** (amended).  For every input on which a briefing is produced,
the status equals the decision table evaluated in strict priority order
with first match winning — with step (5) firing on (hrv below
baseline−5, or RHR elevated, or cv high) whether or not the score is
present. -/
theorem c1_decision_table (t : TodayRecovery) (rh : List RecoveryRecord)
    (rn : List RunStrainRecord) (b : Briefing)
    (h : generate_briefing t rh rn = some b) :
    b.status = specStatusAmended t.recovery_score t.hrv
      (derive t rh rn).hrv_30d_baseline (derive t rh rn).rhr_elevated
      (derive t rh rn).hrv_7d_cv2 := by
  rw [generate_briefing_some h]
  exact statusOf_eq_spec t.recovery_score t.hrv (derive t rh rn)

/-- **C1** (witness).  Score 70, HRV 55 over a baseline of 50, RHR not
elevated, cv 8 (cv² = 64): the produced status and the table both say
`primed`. -/
theorem c1_decision_table_witness :
    (generate_briefing c1wToday c1wHist []).map statusOfB
        = some Status.primed
      ∧ specStatusAmended c1wToday.recovery_score c1wToday.hrv
          (derive c1wToday c1wHist []).hrv_30d_baseline
          (derive c1wToday c1wHist []).rhr_elevated
          (derive c1wToday c1wHist []).hrv_7d_cv2 = Status.primed := by
  have hgb : generate_briefing c1wToday c1wHist []
      = some (assemble c1wToday c1wHist []) := rfl
  have hspec : specStatusAmended c1wToday.recovery_score c1wToday.hrv
      (derive c1wToday c1wHist []).hrv_30d_baseline
      (derive c1wToday c1wHist []).rhr_elevated
      (derive c1wToday c1wHist []).hrv_7d_cv2 = Status.primed := by
    rw [c1w_derive]
    exact c1w_spec
  refine ⟨?_, hspec⟩
  rw [hgb]
  show some (statusOfB (assemble c1wToday c1wHist [])) = some Status.primed
  rw [show statusOfB (assemble c1wToday c1wHist [])
      = (assemble c1wToday c1wHist []).status from rfl,
    c1_decision_table c1wToday c1wHist [] (assemble c1wToday c1wHist []) hgb,
    hspec]

/-- **C2**.  When both the recovery score and the HRV of the day are
absent, `generate_briefing` returns the `None` sentinel whatever the
resting HR and the two histories hold. -/
theorem c2_unavailable_sentinel (rhr : Option ℚ) (rh : List RecoveryRecord)
    (rn : List RunStrainRecord) :
    generate_briefing ⟨none, none, rhr⟩ rh rn = none := by
  unfold generate_briefing
  exact if_pos ⟨rfl, rfl⟩

/-- **C3** (counterexample).  A produced briefing can carry *three*
gated observation phrases (here: the three-day HRV drop, HRV vs
baseline, and high HRV CV), not at most two; and it carries three
recommended action strings, not exactly one. -/
theorem c3_narrative_cex :
    (generate_briefing c3Today c3Hist []).map whyOfB
        = some [Why.hrvDrop 80 60 40, Why.hrvVsBaseline 40 60,
            Why.cvHighNote (10000 / 9)]
      ∧ (generate_briefing c3Today c3Hist []).map actionsLenOfB = some 3 := by
  have hgb : generate_briefing c3Today c3Hist []
      = some (assemble c3Today c3Hist []) := rfl
  rw [hgb]
  constructor
  · show some (whyOfB (assemble c3Today c3Hist []))
      = some [Why.hrvDrop 80 60 40, Why.hrvVsBaseline 40 60,
          Why.cvHighNote (10000 / 9)]
    rw [show whyOfB (assemble c3Today c3Hist [])
        = whyCode c3Today.recovery_score c3Today.hrv c3Today.resting_hr
            (statusOf c3Today.recovery_score c3Today.hrv
              (derive c3Today c3Hist []))
            (derive c3Today c3Hist []) from rfl, c3_derive, c3_status, c3_why]
  · show some (actionsLenOfB (assemble c3Today c3Hist [])) = some 3
    rw [show actionsLenOfB (assemble c3Today c3Hist [])
        = ((actionsFor
            (statusOf c3Today.recovery_score c3Today.hrv
              (derive c3Today c3Hist []))
            (derive c3Today c3Hist []).strain_high
            (derive c3Today c3Hist []).hrv_dropping).take 3).length from rfl,
      c3_derive, c3_status]
    rfl

/-- **C3** (amended).  For every produced briefing the narrative holds
at most the first three applicable phrases of the candidate sequence
(the gated observations in source order, then the elevation note, then
— when the score is below 50 — the respiratory note), and the actions
are exactly the three strings of a fixed lookup keyed on the state,
branched on `strain_high` within solid and on `hrv_dropping` within
cautious. -/
theorem c3_narrative_and_actions (t : TodayRecovery)
    (rh : List RecoveryRecord) (rn : List RunStrainRecord) (b : Briefing)
    (h : generate_briefing t rh rn = some b) :
    b.why.length ≤ 3
      ∧ b.why = (whyCandidates t.recovery_score t.hrv t.resting_hr b.status
          (derive t rh rn)).take 3
      ∧ b.actions = actionsFor b.status (derive t rh rn).strain_high
          (derive t rh rn).hrv_dropping
      ∧ (actionsFor b.status (derive t rh rn).strain_high
          (derive t rh rn).hrv_dropping).length = 3 := by
  rw [generate_briefing_some h]
  refine ⟨?_, ?_, actionsFor_take _ _ _, actionsFor_length _ _ _⟩
  · show (whyCode t.recovery_score t.hrv t.resting_hr
      (statusOf t.recovery_score t.hrv (derive t rh rn))
      (derive t rh rn)).length ≤ 3
    rw [whyCode_eq_take]
    exact List.length_take_le 3 _
  · exact whyCode_eq_take t.recovery_score t.hrv t.resting_hr _ _

/-- **C3** (witness).  At the three-observation input the briefing is
produced with a three-entry narrative and three actions. -/
theorem c3_narrative_and_actions_witness :
    (generate_briefing c3Today c3Hist []).map whyLenOfB = some 3
      ∧ (generate_briefing c3Today c3Hist []).map actionsLenOfB = some 3 := by
  have hgb : generate_briefing c3Today c3Hist []
      = some (assemble c3Today c3Hist []) := rfl
  obtain ⟨hle, hwhy, hact, hlen⟩ :=
    c3_narrative_and_actions c3Today c3Hist [] (assemble c3Today c3Hist []) hgb
  rw [hgb]
  constructor
  · show some (whyLenOfB (assemble c3Today c3Hist [])) = some 3
    rw [show whyLenOfB (assemble c3Today c3Hist [])
        = (assemble c3Today c3Hist []).why.length from rfl, hwhy,
      show (assemble c3Today c3Hist []).status
        = statusOf c3Today.recovery_score c3Today.hrv
            (derive c3Today c3Hist []) from rfl, c3_derive, c3_status,
      ← whyCode_eq_take, c3_why]
    rfl
  · show some (actionsLenOfB (assemble c3Today c3Hist [])) = some 3
    rw [show actionsLenOfB (assemble c3Today c3Hist [])
        = (assemble c3Today c3Hist []).actions.length from rfl, hact, hlen]

/-- **C4**.  For every logged run with parseable pace and HR: fewer
than three prior similar-pace runs in the trailing 30 days give the
building-baseline message regardless of the HR delta; at least three
with today at least 3 bpm under the cohort mean give the
fitness-improved message whose suggested pace renders exactly
`tps − 10` seconds — ten seconds per mile faster than today. -/
theorem c4_coaching_cohort (db : List RunRow) (row : RunRow)
    (rec : Option RecoveryData) (tps : ℤ) (thr : ℚ)
    (hp : pace_str_to_seconds row.pace_per_mile = some tps)
    (hh : row.avg_hr = some thr) :
    ((similarRuns db row.date tps).length < 3 →
      (generate_coaching_insight db row rec).branch
        = InsightBranch.buildingBaseline (seconds_to_pace (some tps)))
    ∧ (3 ≤ (similarRuns db row.date tps).length →
        thr - meanQ (cohortHrs db row.date tps) < -3 →
        (generate_coaching_insight db row rec).branch
          = InsightBranch.fitnessImproved (seconds_to_pace (some tps))
              (meanQ (cohortHrs db row.date tps)) thr
              (seconds_to_pace (some (tps - 10)))) :=
  coaching_insight_branch db row rec tps thr hp hh

/-- **C4** (witness).  A cohort of three prior 8:00-pace runs at HR 150
with today at HR 145: the fitness-improved branch fires and suggests
7:50 — exactly ten seconds per mile faster. -/
theorem c4_coaching_cohort_witness :
    3 ≤ (similarRuns c4Db c4Row.date 480).length
      ∧ (145 : ℚ) - meanQ (cohortHrs c4Db c4Row.date 480) < -3
      ∧ (generate_coaching_insight c4Db c4Row none).branch
          = InsightBranch.fitnessImproved (renderPace 8 0) 150 145
              (renderPace 7 50) := by
  have hcoh : cohortHrs c4Db c4Row.date 480 = [150, 150, 150] := by decide
  have hmean : meanQ (cohortHrs c4Db c4Row.date 480) = 150 := by
    rw [hcoh]
    norm_num [meanQ, List.sum_cons, List.sum_nil]
  have hlen : 3 ≤ (similarRuns c4Db c4Row.date 480).length := by decide
  have hdiff : (145 : ℚ) - meanQ (cohortHrs c4Db c4Row.date 480) < -3 := by
    rw [hmean]
    norm_num
  refine ⟨hlen, hdiff, ?_⟩
  have h := (c4_coaching_cohort c4Db c4Row none 480 145 (by decide) rfl).2
    hlen hdiff
  rw [h, hmean]
  show InsightBranch.fitnessImproved (seconds_to_pace (some 480)) 150 145
      (seconds_to_pace (some (480 - 10)))
    = InsightBranch.fitnessImproved (renderPace 8 0) 150 145 (renderPace 7 50)
  decide

/-- **C5**.  `strain_3d` is the sum of the last three available strain
values (all of them when fewer exist), `strain_typical_3d` is
(total ÷ count) × 3 when any value exists, and `strain_high` holds iff
the typical value exists, is positive, and the strict comparison
`strain_3d > typical × 1.25` holds; with typical 10, a 3-day sum of 13
is flagged and a sum of exactly 12.5 is not. -/
theorem c5_strain_flags :
    (∀ (t : TodayRecovery) (rh : List RecoveryRecord)
        (rn : List RunStrainRecord),
      (derive t rh rn).strain_3d = specStrain3 (strainVals rn)
        ∧ (derive t rh rn).strain_typical_3d
            = specStrainTypical (strainVals rn)
        ∧ ((derive t rh rn).strain_high = true ↔
            ∃ ty, (derive t rh rn).strain_typical_3d = some ty ∧ 0 < ty
              ∧ ty * 1.25 < (derive t rh rn).strain_3d))
    ∧ ((derive scoreOnlyToday [] c5RunsA).strain_typical_3d = some 10
        ∧ (derive scoreOnlyToday [] c5RunsA).strain_3d = 13
        ∧ (derive scoreOnlyToday [] c5RunsA).strain_high = true)
    ∧ ((derive scoreOnlyToday [] c5RunsB).strain_typical_3d = some 10
        ∧ (derive scoreOnlyToday [] c5RunsB).strain_3d = 25 / 2
        ∧ (derive scoreOnlyToday [] c5RunsB).strain_high = false) := by
  refine ⟨?_, ?_, ?_⟩
  · intro t rh rn
    refine ⟨?_, ?_, strainHighSpec _ _⟩
    · show (if 3 ≤ (strainVals rn).length then (lastN 3 (strainVals rn)).sum
          else (strainVals rn).sum) = specStrain3 (strainVals rn)
      unfold specStrain3
      split
      · rfl
      · rename_i hlt
        rw [lastN_of_le 3 (strainVals rn) (by omega)]
    · show (if 0 < (strainVals rn).length
          then some ((if (strainVals rn).isEmpty then 0
              else (strainVals rn).sum) / ((strainVals rn).length : ℚ) * 3)
          else none)
        = specStrainTypical (strainVals rn)
      unfold specStrainTypical
      by_cases hv : strainVals rn = []
      · rw [hv]
        rfl
      · rw [if_pos (List.length_pos.mpr hv), if_neg hv,
          if_neg (by simp [hv])]
  · rw [c5A_derive]
    exact ⟨rfl, rfl, rfl⟩
  · rw [c5B_derive]
    exact ⟨rfl, rfl, rfl⟩

/-- **C6**.  The generator returns normally on every input — the
`Except`-threaded rerun, whose primitives fail exactly where CPython
raises, always returns `ok` of the pure result — and absent inputs
propagate as absent derived metrics (`None`, never zero), the strain
sums excepted. -/
theorem c6_never_raises :
    (∀ (t : TodayRecovery) (rh : List RecoveryRecord)
        (rn : List RunStrainRecord),
      generate_briefingE t rh rn = Except.ok (generate_briefing t rh rn))
    ∧ (∀ (t : TodayRecovery) (rh : List RecoveryRecord)
        (rn : List RunStrainRecord), hrvVals rh = [] →
        (derive t rh rn).hrv_7d_avg = none
          ∧ (derive t rh rn).hrv_30d_baseline = none
          ∧ (derive t rh rn).hrv_7d_cv2 = none)
    ∧ (∀ (t : TodayRecovery) (rh : List RecoveryRecord)
        (rn : List RunStrainRecord), rhrVals rh = [] →
        (derive t rh rn).rhr_7d_avg = none
          ∧ (derive t rh rn).rhr_30d_baseline = none)
    ∧ (∀ (t : TodayRecovery) (rh : List RecoveryRecord)
        (rn : List RunStrainRecord), t.resting_hr = none →
        (derive t rh rn).rhr_diff = none
          ∧ (derive t rh rn).rhr_elevated = false)
    ∧ (∀ (t : TodayRecovery) (rh : List RecoveryRecord)
        (rn : List RunStrainRecord), recVals rh = [] →
        (derive t rh rn).rec_3d_avg = none
          ∧ (derive t rh rn).rec_7d_avg = none)
    ∧ (∀ (t : TodayRecovery) (rh : List RecoveryRecord)
        (rn : List RunStrainRecord), strainVals rn = [] →
        (derive t rh rn).strain_typical_3d = none
          ∧ (derive t rh rn).strain_3d = 0) := by
  refine ⟨?_, ?_, ?_, ?_, ?_, ?_⟩
  · intro t rh rn
    unfold generate_briefingE generate_briefing
    split
    · rfl
    · rw [deriveE_eq]
      rfl
  · intro t rh rn h
    refine ⟨?_, ?_, ?_⟩
    · show meanOpt (if 7 ≤ (hrvVals rh).length then lastN 7 (hrvVals rh)
        else hrvVals rh) = none
      rw [h]
      rfl
    · show meanOpt (hrvVals rh) = none
      rw [h]
      rfl
    · show cv2Of (if 7 ≤ (hrvVals rh).length then lastN 7 (hrvVals rh)
          else hrvVals rh)
        (meanOpt (if 7 ≤ (hrvVals rh).length then lastN 7 (hrvVals rh)
          else hrvVals rh)) = none
      rw [h]
      rfl
  · intro t rh rn h
    constructor
    · show meanOpt (if 7 ≤ (rhrVals rh).length then lastN 7 (rhrVals rh)
        else rhrVals rh) = none
      rw [h]
      rfl
    · show meanOpt (rhrVals rh) = none
      rw [h]
      rfl
  · intro t rh rn h
    constructor
    · show rhrDiffOf t.resting_hr (meanOpt (rhrVals rh)) = none
      rw [h]
      rfl
    · show (match rhrDiffOf t.resting_hr (meanOpt (rhrVals rh)) with
        | some d => decide (3 ≤ d)
        | none => false) = false
      rw [h]
      rfl
  · intro t rh rn h
    constructor
    · show meanOpt (if 3 ≤ (recVals rh).length then lastN 3 (recVals rh)
        else recVals rh) = none
      rw [h]
      rfl
    · show meanOpt (if 7 ≤ (recVals rh).length then lastN 7 (recVals rh)
        else recVals rh) = none
      rw [h]
      rfl
  · intro t rh rn h
    constructor
    · show (if 0 < (strainVals rn).length
          then some ((if (strainVals rn).isEmpty then 0
              else (strainVals rn).sum) / ((strainVals rn).length : ℚ) * 3)
          else none) = none
      rw [h]
      rfl
    · show (if 3 ≤ (strainVals rn).length then (lastN 3 (strainVals rn)).sum
        else (strainVals rn).sum) = 0
      rw [h]
      rfl

/-- **C6** (witness).  On the empty histories with only an HRV reading,
the raising rerun returns `ok` and every history-derived metric is
`None`. -/
theorem c6_never_raises_witness :
    generate_briefingE c6Today [] []
        = Except.ok (generate_briefing c6Today [] [])
      ∧ (derive c6Today [] []).hrv_7d_avg = none
      ∧ (derive c6Today [] []).rhr_diff = none
      ∧ (derive c6Today [] []).rec_3d_avg = none
      ∧ (derive c6Today [] []).strain_typical_3d = none :=
  ⟨c6_never_raises.1 c6Today [] [],
   (c6_never_raises.2.1 c6Today [] [] rfl).1,
   (c6_never_raises.2.2.2.1 c6Today [] [] rfl).1,
   (c6_never_raises.2.2.2.2.1 c6Today [] [] rfl).1,
   (c6_never_raises.2.2.2.2.2 c6Today [] [] rfl).1⟩

/-- **C7** (counterexample).  `"0:00"` is an `M:SS` string with
seconds < 60, yet it parses to 0 seconds and renders back as `"N/A"`,
not `"0:00"`: the round trip fails at the zero pace. -/
theorem c7_pace_roundtrip_cex :
    pace_str_to_seconds (some (renderPace 0 0)) = some 0
      ∧ seconds_to_pace (pace_str_to_seconds (some (renderPace 0 0))) = strNA
      ∧ strNA ≠ renderPace 0 0
      ∧ (0 : ℕ) < 60 := by
  decide

/-- **C7** (amended).  For every `M:SS` string with seconds < 60 and a
positive total, parsing to seconds and rendering back is the
identity. -/
theorem c7_pace_roundtrip (m s : ℕ) (hs : s < 60) (hpos : 0 < m * 60 + s) :
    seconds_to_pace (pace_str_to_seconds (some (renderPace m s)))
      = renderPace m s := by
  rw [pace_str_to_seconds_renderPace]
  exact seconds_to_pace_mul m s hs hpos

/-- **C7** (witness).  `"7:49"` parses to 469 seconds and round-trips
exactly. -/
theorem c7_pace_roundtrip_witness :
    ((49 : ℕ) < 60 ∧ 0 < 7 * 60 + 49)
      ∧ pace_str_to_seconds (some (renderPace 7 49)) = some 469
      ∧ seconds_to_pace (pace_str_to_seconds (some (renderPace 7 49)))
          = renderPace 7 49 :=
  ⟨⟨by decide, by decide⟩, by decide,
   c7_pace_roundtrip 7 49 (by decide) (by decide)⟩

/-- **C8** (counterexample).  The source averages the last seven
*present* HRV values, not the values present in the trailing seven
*days*: with HRV present only on day 1 (value 10) and day 8 (value 20),
the code reports 15 while the trailing-seven-days mean is 20. -/
theorem c8_trailing_average_cex :
    (derive c6Today c8Hist []).hrv_7d_avg = some 15
      ∧ specHrv7dAvg c8Hist = some 20
      ∧ (derive c6Today c8Hist []).hrv_7d_avg ≠ specHrv7dAvg c8Hist := by
  have h1 : (derive c6Today c8Hist []).hrv_7d_avg = some 15 := by
    rw [c8_derive]
    rfl
  have h2 : specHrv7dAvg c8Hist = some 20 := by
    norm_num [specHrv7dAvg, lastNRec, c8Hist, meanOpt, meanQ,
      List.filterMap_cons, List.filterMap_nil]
  refine ⟨h1, h2, ?_⟩
  rw [h1, h2]
  norm_num

/-- **C8** (amended).  `hrv_7d_avg` is the mean of the last up to seven
*present* HRV values of the history (which may reach back beyond seven
days when values are absent), `hrv_30d_baseline` the mean of all
present values; both are `None` — never zero — when no value is
present; the resting-HR averages are computed analogously. -/
theorem c8_averages (t : TodayRecovery) (rh : List RecoveryRecord)
    (rn : List RunStrainRecord) :
    (derive t rh rn).hrv_7d_avg = meanOpt (lastN 7 (hrvVals rh))
      ∧ (derive t rh rn).hrv_30d_baseline = meanOpt (hrvVals rh)
      ∧ (hrvVals rh = [] →
          (derive t rh rn).hrv_7d_avg = none
            ∧ (derive t rh rn).hrv_30d_baseline = none)
      ∧ (derive t rh rn).rhr_7d_avg = meanOpt (lastN 7 (rhrVals rh))
      ∧ (derive t rh rn).rhr_30d_baseline = meanOpt (rhrVals rh) := by
  refine ⟨?_, rfl, ?_, ?_, rfl⟩
  · show meanOpt (if 7 ≤ (hrvVals rh).length then lastN 7 (hrvVals rh)
      else hrvVals rh) = meanOpt (lastN 7 (hrvVals rh))
    split
    · rfl
    · rename_i hlt
      rw [lastN_of_le 7 (hrvVals rh) (by omega)]
  · intro h
    constructor
    · show meanOpt (if 7 ≤ (hrvVals rh).length then lastN 7 (hrvVals rh)
        else hrvVals rh) = none
      rw [h]
      rfl
    · show meanOpt (hrvVals rh) = none
      rw [h]
      rfl
  · show meanOpt (if 7 ≤ (rhrVals rh).length then lastN 7 (rhrVals rh)
      else rhrVals rh) = meanOpt (lastN 7 (rhrVals rh))
    split
    · rfl
    · rename_i hlt
      rw [lastN_of_le 7 (rhrVals rh) (by omega)]

/-- **C8** (witness).  On the empty history both HRV aggregates are
`None`. -/
theorem c8_averages_witness :
    (derive c6Today [] []).hrv_7d_avg = meanOpt (lastN 7 (hrvVals []))
      ∧ ((derive c6Today [] []).hrv_7d_avg = none
          ∧ (derive c6Today [] []).hrv_30d_baseline = none) :=
  ⟨(c8_averages c6Today [] []).1, (c8_averages c6Today [] []).2.2.1 rfl⟩

/-- **C9** (counterexample).  The coaching-insight generator is not a
pure function of its explicit arguments: it reads the run table from
the database.  Two invocations with identical arguments but different
stored run tables produce different insights. -/
theorem c9_purity_cex :
    (generate_coaching_insightW ⟨[], 0⟩ c9Row none).2
      ≠ (generate_coaching_insightW ⟨c9Db, 0⟩ c9Row none).2 := by
  have h1 := (coaching_insight_branch [] c9Row none 480 150
    (by decide) rfl).1 (by decide)
  have hcoh : cohortHrs c9Db c9Row.date 480 = [160, 160, 160] := by decide
  have hmean : meanQ (cohortHrs c9Db c9Row.date 480) = 160 := by
    rw [hcoh]
    norm_num [meanQ, List.sum_cons, List.sum_nil]
  have h2 := (coaching_insight_branch c9Db c9Row none 480 150
    (by decide) rfl).2 (by decide) (by rw [hmean]; norm_num)
  intro he
  have hbr : (generate_coaching_insight [] c9Row none).branch
      = (generate_coaching_insight c9Db c9Row none).branch := by
    show (generate_coaching_insightW ⟨[], 0⟩ c9Row none).2.branch
      = (generate_coaching_insightW ⟨c9Db, 0⟩ c9Row none).2.branch
    rw [he]
  rw [h1, h2] at hbr
  exact InsightBranch.noConfusion hbr

/-- **C9** (amended).  The briefing generator is pure: threaded through
the world it neither reads nor writes it, so equal arguments give
identical output and rerunning the aggregation is bit-identical.  The
coaching-insight generator performs exactly one read — the run table —
and no write: its output is determined by its arguments together with
the run-table contents. -/
theorem c9_purity :
    (∀ (w v : World) (t : TodayRecovery) (rh : List RecoveryRecord)
        (rn : List RunStrainRecord),
      (generate_briefingW w t rh rn).2 = (generate_briefingW v t rh rn).2
        ∧ (generate_briefingW w t rh rn).1 = w)
    ∧ (∀ (w : World) (row : RunRow) (rec : Option RecoveryData),
        (generate_coaching_insightW w row rec).1 = w)
    ∧ (∀ (w v : World) (row : RunRow) (rec : Option RecoveryData),
        w.runsTable = v.runsTable →
          (generate_coaching_insightW w row rec).2
            = (generate_coaching_insightW v row rec).2)
    ∧ (∀ (t : TodayRecovery) (rh : List RecoveryRecord)
        (rn : List RunStrainRecord), derive t rh rn = derive t rh rn) := by
  refine ⟨fun w v t rh rn => ⟨rfl, rfl⟩, fun w row rec => rfl, ?_,
    fun t rh rn => rfl⟩
  intro w v row rec h
  show generate_coaching_insight w.runsTable row rec
    = generate_coaching_insight v.runsTable row rec
  rw [h]

/-- **C9** (witness).  Two worlds with the same run table but different
remainders give the same insight. -/
theorem c9_purity_witness :
    (generate_coaching_insightW ⟨c9Db, 0⟩ c9Row none).2
      = (generate_coaching_insightW ⟨c9Db, 7⟩ c9Row none).2 :=
  c9_purity.2.2.1 ⟨c9Db, 0⟩ ⟨c9Db, 7⟩ c9Row none rfl

/-- **C10**.  In the metrics dict, `strain_3d` is reported `None`
exactly when the computed sum is 0 (Python truthiness), while
`strain_typical_3d` is reported `None` exactly when it is literally
absent — which happens exactly when no strain value exists. -/
theorem c10_strain_metric_display (t : TodayRecovery)
    (rh : List RecoveryRecord) (rn : List RunStrainRecord) (b : Briefing)
    (h : generate_briefing t rh rn = some b) :
    (b.metrics.strain_3d = none ↔ (derive t rh rn).strain_3d = 0)
      ∧ (b.metrics.strain_typical_3d = none
          ↔ (derive t rh rn).strain_typical_3d = none)
      ∧ ((derive t rh rn).strain_typical_3d = none ↔ strainVals rn = []) := by
  rw [generate_briefing_some h]
  refine ⟨?_, ?_, ?_⟩
  · show (if (derive t rh rn).strain_3d = 0 then none
        else some (pyRound1 (derive t rh rn).strain_3d)) = none
      ↔ (derive t rh rn).strain_3d = 0
    split
    · rename_i h0
      simp [h0]
    · rename_i h0
      simp [h0]
  · show ((derive t rh rn).strain_typical_3d.map pyRound1) = none
      ↔ (derive t rh rn).strain_typical_3d = none
    cases (derive t rh rn).strain_typical_3d <;> simp
  · have hshape : (derive t rh rn).strain_typical_3d
        = (if 0 < (strainVals rn).length
          then some ((if (strainVals rn).isEmpty then 0
              else (strainVals rn).sum) / ((strainVals rn).length : ℚ) * 3)
          else none) := rfl
    rw [hshape]
    constructor
    · intro hn
      by_contra hne
      rw [if_pos (List.length_pos.mpr hne)] at hn
      exact Option.noConfusion hn
    · intro hnil
      rw [hnil]
      rfl

/-- **C10** (witness).  One run with strain 0: the 3-day sum is a
genuine 0, displayed as `None`, while `strain_typical_3d` is present
and displayed as 0. -/
theorem c10_strain_metric_display_witness :
    (generate_briefing scoreOnlyToday [] c10Runs).map strain3MetricOfB
        = some none
      ∧ (generate_briefing scoreOnlyToday [] c10Runs).map typicalMetricOfB
          = some (some 0) := by
  have hgb : generate_briefing scoreOnlyToday [] c10Runs
      = some (assemble scoreOnlyToday [] c10Runs) := rfl
  have h := c10_strain_metric_display scoreOnlyToday [] c10Runs
    (assemble scoreOnlyToday [] c10Runs) hgb
  rw [hgb]
  constructor
  · show some (strain3MetricOfB (assemble scoreOnlyToday [] c10Runs))
      = some none
    have h3 : (assemble scoreOnlyToday [] c10Runs).metrics.strain_3d
        = none := h.1.mpr (by rw [c10_derive]; rfl)
    rw [show strain3MetricOfB (assemble scoreOnlyToday [] c10Runs)
        = (assemble scoreOnlyToday [] c10Runs).metrics.strain_3d from rfl, h3]
  · show some (typicalMetricOfB (assemble scoreOnlyToday [] c10Runs))
      = some (some 0)
    rw [show typicalMetricOfB (assemble scoreOnlyToday [] c10Runs)
        = ((derive scoreOnlyToday [] c10Runs).strain_typical_3d.map pyRound1)
          from rfl, c10_derive]
    show some (some (pyRound1 0)) = some (some 0)
    rw [show pyRound1 (0 : ℚ) = 0 from by
      norm_num [pyRound1, bankersRound, round_zero, Int.floor_zero]]

end RunIntel
